import Mathlib

/-!
# Verification of the ACPI button driver's lid-state engine

Shallow embedding of `drivers/acpi/button.c` (the lid-state reliability and
correction engine) and proofs about it.

Modelling conventions:
* `ktime_t` timestamps and the report interval are a single abstract time unit
  (`Nat`); `ms_to_ktime` is the identity under this convention, and
  `ktime_after a b` is `b < a`.  The two `ktime_get()` calls inside one
  invocation of `acpi_lid_notify_state` are modelled as the same instant `now`,
  passed as a parameter.
* The C field `last_state` is an `int` that only ever holds `0`/`1` (every
  write goes through `!!`), so it is modelled as `Bool`.
* Hardware `_LID` evaluation (`acpi_evaluate_integer`) is external; its outcome
  is an input `Option Nat` (`none` = ACPI_FAILURE, `some v` = the integer the
  method returned).
* Each `input_report_switch(input, SW_LID, v)` call is recorded as an
  `Emission`: `value` is the literal boolean handed to the sink, and `ev` is
  the source's own classification of the report (`state ? "open" : "closed"`;
  the complement switch event is emitted only in the `!state` branch and is the
  source's "complement switch event for close").
* Globals (`lid_init_state`, `lid_report_interval`, `lid_device`) are passed
  as parameters; functions that mutate `struct acpi_button` return the updated
  record together with the list of emissions, and, where the C function returns
  an `int` status, that status.
-/

/-- Error numbers used by the driver (`-ENODEV`, `-EINVAL` are returned
negated, as in the C source). -/
def ENODEV : Int := 19

def EINVAL : Int := 22

/-- Values of the `lid_init_state` enum in `button.c`. -/
def ACPI_BUTTON_LID_INIT_IGNORE : Int := 0

def ACPI_BUTTON_LID_INIT_OPEN : Int := 1

def ACPI_BUTTON_LID_INIT_METHOD : Int := 2

def ACPI_BUTTON_LID_INIT_DISABLED : Int := 3

/-- Button type constant `ACPI_BUTTON_TYPE_LID` (0x05). -/
def ACPI_BUTTON_TYPE_LID : Nat := 5

/-- Abstract lid event, the source's classification of a report:
`state ? "open" : "closed"`. -/
inductive LidEvent
  | Open
  | Close
deriving DecidableEq, Repr

/-- The source's label for a report about internal state `state`:
open when `state` is true, closed when false. -/
def eventOf (state : Bool) : LidEvent :=
  if state then LidEvent.Open else LidEvent.Close

/-- One `input_report_switch(input, SW_LID, value)` call: `ev` is the abstract
event being reported (see `eventOf`), `value` the literal boolean passed to the
input sink (the sink deduplicates identical consecutive values itself). -/
structure Emission where
  ev : LidEvent
  value : Bool
deriving DecidableEq, Repr

/-- The mutable per-device record `struct acpi_button` (the fields the lid
engine reads or writes; `dev`, `input`, `phys`, `pushed` carry no state the
claims touch). -/
structure AcpiButton where
  type : Nat
  last_state : Bool
  last_time : Nat
  suspended : Bool
  lid_state_initialized : Bool
deriving DecidableEq, Repr

/-- `acpi_lid_evaluate_state`: evaluate `_LID`; on ACPI failure return
`-ENODEV`, otherwise booleanize the integer (`lid_state ? 1 : 0`). -/
def acpi_lid_evaluate_state (hw : Option Nat) : Int :=
  match hw with
  | none => -ENODEV
  | some lid_state => if lid_state ≠ 0 then 1 else 0

/-- `acpi_lid_notify_state` (lines 194-273): the notification decision engine.
Returns the updated button and the emissions, in order.  The synthetic
complement branch (lines 245-260) only builds emissions and performs no write
to the button record, exactly as in the source; `last_state`/`last_time` are
written only in the final `do_update` block. -/
def acpi_lid_notify_state (lid_init_state : Int) (lid_report_interval : Nat)
    (now : Nat) (button : AcpiButton) (state : Bool) :
    AcpiButton × List Emission :=
  let do_update : Bool :=
    if lid_init_state ≠ ACPI_BUTTON_LID_INIT_IGNORE ∨ button.last_state ≠ state
    then true else false
  let next_report := button.last_time + lid_report_interval
  let complain : Prop := button.last_state = state ∧ next_report < now
  let do_update : Bool :=
    if complain ∧ lid_init_state = ACPI_BUTTON_LID_INIT_IGNORE then true
    else do_update
  let events : List Emission :=
    if complain ∧ lid_init_state = ACPI_BUTTON_LID_INIT_IGNORE ∧ state = false
    then [⟨eventOf state, state⟩] else []
  if do_update then
    ({ button with last_state := state, last_time := now },
      events ++ [⟨eventOf state, !state⟩])
  else
    (button, events)

/-- `acpi_lid_update_state`: sample the hardware, bail out with the error when
sampling fails (no engine call, no button change), otherwise feed the sample
to `acpi_lid_notify_state`.  (`acpi_pm_wakeup_event` is external and carries
no state here.) -/
def acpi_lid_update_state (lid_init_state : Int) (lid_report_interval : Nat)
    (now : Nat) (hw : Option Nat) (button : AcpiButton)
    (signal_wakeup : Bool) : Int × AcpiButton × List Emission :=
  let state := acpi_lid_evaluate_state hw
  if state < 0 then (state, button, [])
  else
    let r := acpi_lid_notify_state lid_init_state lid_report_interval now
      button (decide (state ≠ 0))
    (0, r.1, r.2)

/-- `acpi_lid_initialize_state`: apply the resolved policy once, then set
`lid_state_initialized`. -/
def acpi_lid_initialize_state (lid_init_state : Int)
    (lid_report_interval : Nat) (now : Nat) (hw : Option Nat)
    (button : AcpiButton) : AcpiButton × List Emission :=
  let r :=
    if lid_init_state = ACPI_BUTTON_LID_INIT_OPEN then
      acpi_lid_notify_state lid_init_state lid_report_interval now button true
    else if lid_init_state = ACPI_BUTTON_LID_INIT_METHOD then
      let u := acpi_lid_update_state lid_init_state lid_report_interval now hw
        button false
      (u.2.1, u.2.2)
    else
      (button, [])
  ({ r.1 with lid_state_initialized := true }, r.2)

/-- `acpi_button_resume` (CONFIG_PM_SLEEP): clear `suspended`; for a lid
button, reset `last_state` to `!!acpi_lid_evaluate_state(adev)` (note the `!!`
coerces the `-ENODEV` failure value to `true`) and `last_time` to now, then
re-run initialization. -/
def acpi_button_resume (lid_init_state : Int) (lid_report_interval : Nat)
    (now : Nat) (hw : Option Nat) (button : AcpiButton) :
    AcpiButton × List Emission :=
  let button := { button with suspended := false }
  if button.type = ACPI_BUTTON_TYPE_LID then
    let button := { button with
      last_state := decide (acpi_lid_evaluate_state hw ≠ 0),
      last_time := now }
    acpi_lid_initialize_state lid_init_state lid_report_interval now hw button
  else
    (button, [])

/-- `acpi_lid_open`: the exported query.  `lid_device` is the global pointer
(`none` = never registered); its payload is the hardware sampling outcome. -/
def acpi_lid_open (lid_device : Option (Option Nat)) : Int :=
  match lid_device with
  | none => -ENODEV
  | some hw => acpi_lid_evaluate_state hw

/-- One entry of the `dmi_lid_quirks` table: the DMI match fields used by the
driver's entries (`DMI_SYS_VENDOR`, `DMI_PRODUCT_NAME`, optionally
`DMI_BIOS_VERSION`) and the `driver_data` payload (a lid-init policy). -/
structure DmiSystemId where
  sys_vendor : String
  product_name : String
  bios_version : Option String
  driver_data : Int
deriving DecidableEq, Repr

/-- The driver's static DMI quirk table, in source order. -/
def dmi_lid_quirks : List DmiSystemId :=
  [⟨"Insyde", "T701", some "BYT70A.YNCHENG.WIN.007",
      ACPI_BUTTON_LID_INIT_DISABLED⟩,
    ⟨"Insyde", "CherryTrail", some "M882", ACPI_BUTTON_LID_INIT_DISABLED⟩,
    ⟨"LENOVO", "82BG", none, ACPI_BUTTON_LID_INIT_OPEN⟩,
    ⟨"MEDION", "E2215T", none, ACPI_BUTTON_LID_INIT_OPEN⟩,
    ⟨"MEDION", "E2228T", none, ACPI_BUTTON_LID_INIT_OPEN⟩,
    ⟨"Razer", "Razer Blade Stealth 13 Late 2019", none,
      ACPI_BUTTON_LID_INIT_OPEN⟩]

/-- Modelled from the spec: `dmi_first_match` is kernel DMI library code, not
part of this repository; per the spec the quirk table is scanned in order and
the first entry whose full signature matches the running platform wins.  The
platform is abstracted as the per-entry match predicate `m`. -/
def dmi_first_match (m : DmiSystemId → Bool) :
    List DmiSystemId → Option DmiSystemId
  | [] => none
  | e :: rest => if m e then some e else dmi_first_match m rest

/-- `acpi_button_register_driver`, restricted to the `lid_init_state`
resolution it performs: when no explicit override was set (`-1`), take the
first matching quirk entry's policy, else the `method` default; an explicit
override is kept unchanged with no quirk lookup. -/
def acpi_button_register_driver (lid_init_state : Int)
    (m : DmiSystemId → Bool) : Int :=
  if lid_init_state = -1 then
    match dmi_first_match m dmi_lid_quirks with
    | some dmi_id => dmi_id.driver_data
    | none => ACPI_BUTTON_LID_INIT_METHOD
  else
    lid_init_state

/-- The `lid_init_state_str` name table, in enum order. -/
def lid_init_state_str : List String :=
  ["ignore", "open", "method", "disabled"]

/-- Modelled from the spec: the loop inside `sysfs_match_string` (kernel
library code, not part of this repository); per the spec a configuration
string is valid exactly when it equals one of the named policy values. -/
def sysfs_match_string_go : List String → String → Nat → Int
  | [], _, _ => -EINVAL
  | s :: rest, val, n =>
      if s = val then (n : Int) else sysfs_match_string_go rest val (n + 1)

/-- Modelled from the spec: `sysfs_match_string` returns the index of the
matching array entry, or `-EINVAL` when none matches. -/
def sysfs_match_string (strs : List String) (val : String) : Int :=
  sysfs_match_string_go strs val 0

/-- `param_set_lid_init_state`: validate the string against
`lid_init_state_str`; on failure return the error and keep `lid_init_state`,
on success store the matched index and return 0.  Result is
(return value, new `lid_init_state`). -/
def param_set_lid_init_state (lid_init_state : Int) (val : String) :
    Int × Int :=
  let i := sysfs_match_string lid_init_state_str val
  if i < 0 then (i, lid_init_state)
  else (0, i)

/-- Test: the heuristic scenario of the spec at t = 600 on the t = 0 tracker. -/
example :
    acpi_lid_notify_state ACPI_BUTTON_LID_INIT_IGNORE 500 600
      ⟨ACPI_BUTTON_TYPE_LID, false, 0, false, true⟩ false =
    (⟨ACPI_BUTTON_TYPE_LID, false, 600, false, true⟩,
      [⟨LidEvent.Close, false⟩, ⟨LidEvent.Close, true⟩]) := by decide

/-- Test: same state within the interval under Ignore is a no-op. -/
example :
    acpi_lid_notify_state ACPI_BUTTON_LID_INIT_IGNORE 500 100
      ⟨ACPI_BUTTON_TYPE_LID, false, 0, false, true⟩ false =
    (⟨ACPI_BUTTON_TYPE_LID, false, 0, false, true⟩, []) := by decide

/-- C1: under the Ignore policy with `last_state = false`, `last_time = T0`, a
call with `raw_state = false` at `now = T0 + interval + 1` emits exactly two
events, the synthetic close (complement value `false`) followed by the real
close (value `true`); the call updates `last_time` to `T0 + interval + 1` and
leaves `last_state = false`.  The synthetic branch of
`acpi_lid_notify_state` builds emissions only and performs no tracker write,
so the synthetic emission by itself alters neither `last_state` nor
`last_time`. -/
theorem ignore_heuristic_double_close (T0 interval ty : Nat)
    (susp init : Bool) :
    acpi_lid_notify_state ACPI_BUTTON_LID_INIT_IGNORE interval
      (T0 + interval + 1) ⟨ty, false, T0, susp, init⟩ false =
    (⟨ty, false, T0 + interval + 1, susp, init⟩,
      [⟨LidEvent.Close, false⟩, ⟨LidEvent.Close, true⟩]) := by
  simp [acpi_lid_notify_state, eventOf, ACPI_BUTTON_LID_INIT_IGNORE,
    Nat.lt_succ_self]

/-- C4: under the Ignore policy with `last_state = true`, `last_time = T0`, a
call with `raw_state = true` at `now = T0 + interval + 1` emits exactly one
event, the real open, with no synthetic duplicate before it. -/
theorem ignore_heuristic_single_open (T0 interval ty : Nat)
    (susp init : Bool) :
    acpi_lid_notify_state ACPI_BUTTON_LID_INIT_IGNORE interval
      (T0 + interval + 1) ⟨ty, true, T0, susp, init⟩ true =
    (⟨ty, true, T0 + interval + 1, susp, init⟩,
      [⟨LidEvent.Open, false⟩]) := by
  simp [acpi_lid_notify_state, eventOf, ACPI_BUTTON_LID_INIT_IGNORE,
    Nat.lt_succ_self]

/-- C3: for every policy value, a call with `raw_state` different from
`last_state` emits exactly one event, labelled by `raw_state` (close if false,
open if true, carrying the inverted sink value `!state`), and sets
`last_state := raw_state`, `last_time := now`. -/
theorem transition_always_reported (pol : Int) (interval now : Nat)
    (b : AcpiButton) (s : Bool) (h : b.last_state ≠ s) :
    acpi_lid_notify_state pol interval now b s =
    ({ b with last_state := s, last_time := now }, [⟨eventOf s, !s⟩]) := by
  simp [acpi_lid_notify_state, h]

/-- Witness for C3: closed at `last_state = true`, `raw_state = false`. -/
theorem transition_always_reported_witness :
    acpi_lid_notify_state ACPI_BUTTON_LID_INIT_METHOD 500 42
      ⟨ACPI_BUTTON_TYPE_LID, true, 7, false, true⟩ false =
    (⟨ACPI_BUTTON_TYPE_LID, false, 42, false, true⟩,
      [⟨LidEvent.Close, true⟩]) :=
  transition_always_reported ACPI_BUTTON_LID_INIT_METHOD 500 42
    ⟨ACPI_BUTTON_TYPE_LID, true, 7, false, true⟩ false (by decide)

/-- C6: under the Ignore policy, a call with `raw_state = last_state` at a
`now` not past `last_time + interval` emits nothing and leaves the button
(both `last_state` and `last_time`) unchanged. -/
theorem ignore_same_state_within_interval_noop (interval now : Nat)
    (b : AcpiButton) (s : Bool) (h1 : b.last_state = s)
    (h2 : now ≤ b.last_time + interval) :
    acpi_lid_notify_state ACPI_BUTTON_LID_INIT_IGNORE interval now b s =
    (b, []) := by
  simp [acpi_lid_notify_state, ACPI_BUTTON_LID_INIT_IGNORE, h1,
    Nat.not_lt.mpr h2]

/-- Witness for C6: the spec scenario's t = 1100 sample after the t = 600
update (1100 is not past 600 + 500). -/
theorem ignore_same_state_within_interval_noop_witness :
    acpi_lid_notify_state ACPI_BUTTON_LID_INIT_IGNORE 500 1100
      ⟨ACPI_BUTTON_TYPE_LID, false, 600, false, true⟩ false =
    (⟨ACPI_BUTTON_TYPE_LID, false, 600, false, true⟩, []) :=
  ignore_same_state_within_interval_noop 500 1100
    ⟨ACPI_BUTTON_TYPE_LID, false, 600, false, true⟩ false (by decide)
    (by decide)

/-- C10: whenever the compensation heuristic fires with `raw_state = false`
(Ignore policy, `last_state = false`, `now` past `last_time + interval`), the
synthetic emission carries the un-inverted internal state (`false`) and the
real emission its inverse (`true`): the two delivered sink values are always
the two distinct booleans `[false, true]`, never two identical ones. -/
theorem heuristic_complement_values (interval now : Nat) (b : AcpiButton)
    (h1 : b.last_state = false) (h2 : b.last_time + interval < now) :
    (acpi_lid_notify_state ACPI_BUTTON_LID_INIT_IGNORE interval now b
        false).2.map Emission.value = [false, true] := by
  simp [acpi_lid_notify_state, eventOf, ACPI_BUTTON_LID_INIT_IGNORE, h1, h2]

/-- Witness for C10: closed instance of the complement-value property. -/
theorem heuristic_complement_values_witness :
    (acpi_lid_notify_state ACPI_BUTTON_LID_INIT_IGNORE 500 501
        ⟨ACPI_BUTTON_TYPE_LID, false, 0, false, true⟩
        false).2.map Emission.value = [false, true] :=
  heuristic_complement_values 500 501
    ⟨ACPI_BUTTON_TYPE_LID, false, 0, false, true⟩ (by decide) (by decide)

/-- C2 counterexample: under the TrustMethod (`method`) policy, two
consecutive calls with identical `raw_state = false` on a tracker with
`last_state = false`, `last_time = 0` (first call at `now = 100`, second at
`now = 200`, within the 500-unit interval of the updated `last_time = 100`)
do NOT produce an empty event sequence: each call emits one event, and
`last_time` is changed by each call, refuting the claim as stated. -/
theorem method_same_state_not_noop_counterexample :
    acpi_lid_notify_state ACPI_BUTTON_LID_INIT_METHOD 500 200
      (acpi_lid_notify_state ACPI_BUTTON_LID_INIT_METHOD 500 100
        ⟨ACPI_BUTTON_TYPE_LID, false, 0, false, true⟩ false).1 false =
    (⟨ACPI_BUTTON_TYPE_LID, false, 200, false, true⟩,
      [⟨LidEvent.Close, true⟩]) := by decide

/-- C2 amended: under the TrustMethod policy, a call with `raw_state` equal to
`last_state` always emits exactly one event that repeats the already-reported
sink value `!raw_state` (which the deduplicating event sink suppresses
downstream), leaves `last_state` unchanged, and sets `last_time := now`; so
two consecutive such calls, the second within the interval of the updated
`last_time`, each emit that one repeated event, and the only tracker change is
`last_time` advancing to each call's timestamp. -/
theorem method_same_state_single_repeat (interval now1 now2 : Nat)
    (b : AcpiButton) (s : Bool) (h : b.last_state = s)
    (hwin : now2 ≤ now1 + interval) :
    acpi_lid_notify_state ACPI_BUTTON_LID_INIT_METHOD interval now1 b s =
      ({ b with last_state := s, last_time := now1 }, [⟨eventOf s, !s⟩]) ∧
    acpi_lid_notify_state ACPI_BUTTON_LID_INIT_METHOD interval now2
        { b with last_state := s, last_time := now1 } s =
      ({ b with last_state := s, last_time := now2 }, [⟨eventOf s, !s⟩]) := by
  constructor <;>
    simp [acpi_lid_notify_state, ACPI_BUTTON_LID_INIT_METHOD,
      ACPI_BUTTON_LID_INIT_IGNORE, h]

/-- Witness for the amended C2. -/
theorem method_same_state_single_repeat_witness :
    acpi_lid_notify_state ACPI_BUTTON_LID_INIT_METHOD 500 100
      ⟨ACPI_BUTTON_TYPE_LID, false, 0, false, true⟩ false =
      (⟨ACPI_BUTTON_TYPE_LID, false, 100, false, true⟩,
        [⟨LidEvent.Close, true⟩]) ∧
    acpi_lid_notify_state ACPI_BUTTON_LID_INIT_METHOD 500 200
      ⟨ACPI_BUTTON_TYPE_LID, false, 100, false, true⟩ false =
      (⟨ACPI_BUTTON_TYPE_LID, false, 200, false, true⟩,
        [⟨LidEvent.Close, true⟩]) :=
  method_same_state_single_repeat 500 100 200
    ⟨ACPI_BUTTON_TYPE_LID, false, 0, false, true⟩ false (by decide) (by decide)

/-- Helper: `dmi_first_match` returns the first entry the predicate accepts. -/
theorem dmi_first_match_eq_first (m : DmiSystemId → Bool)
    (l1 l2 : List DmiSystemId) (e : DmiSystemId)
    (h1 : ∀ x ∈ l1, m x = false) (h2 : m e = true) :
    dmi_first_match m (l1 ++ e :: l2) = some e := by
  induction l1 with
  | nil => simp [dmi_first_match, h2]
  | cons a tl ih =>
      have ha : m a = false := h1 a (List.mem_cons_self a tl)
      simp only [List.cons_append, dmi_first_match, ha, Bool.false_eq_true,
        if_false]
      exact ih fun x hx => h1 x (List.mem_cons_of_mem a hx)

/-- Helper: `dmi_first_match` returns nothing when no entry matches. -/
theorem dmi_first_match_eq_none (m : DmiSystemId → Bool)
    (l : List DmiSystemId) (h : ∀ x ∈ l, m x = false) :
    dmi_first_match m l = none := by
  induction l with
  | nil => rfl
  | cons a tl ih =>
      have ha : m a = false := h a (List.mem_cons_self a tl)
      simp only [dmi_first_match, ha, Bool.false_eq_true, if_false]
      exact ih fun x hx => h x (List.mem_cons_of_mem a hx)

/-- C5: policy resolution.  (1) An explicit override (any value other than
`-1`) is returned unchanged, for every platform — in particular no quirk
lookup influences it.  (2) With no override, the policy of the first
quirk-table entry matching the platform wins, so of two matching entries the
earlier one's policy is returned.  (3) With no override and no matching entry,
the `method` (TrustMethod) default is returned. -/
theorem quirk_resolution (m : DmiSystemId → Bool) :
    (∀ p : Int, p ≠ -1 → acpi_button_register_driver p m = p) ∧
    (∀ (e : DmiSystemId) (l1 l2 : List DmiSystemId),
      dmi_lid_quirks = l1 ++ e :: l2 → m e = true →
      (∀ x ∈ l1, m x = false) →
      acpi_button_register_driver (-1) m = e.driver_data) ∧
    ((∀ x ∈ dmi_lid_quirks, m x = false) →
      acpi_button_register_driver (-1) m = ACPI_BUTTON_LID_INIT_METHOD) := by
  refine ⟨fun p hp => ?_, fun e l1 l2 heq he hl1 => ?_, fun hnone => ?_⟩
  · simp [acpi_button_register_driver, hp]
  · simp [acpi_button_register_driver, heq,
      dmi_first_match_eq_first m l1 l2 e hl1 he]
  · simp [acpi_button_register_driver,
      dmi_first_match_eq_none m dmi_lid_quirks hnone]

/-- Witness for C5: a MEDION platform signature matches both MEDION entries of
the table; the earlier one (`E2215T`, policy `open`) wins.  Also instantiates
the explicit-override and default branches. -/
theorem quirk_resolution_witness :
    acpi_button_register_driver (-1) (fun e => e.sys_vendor == "MEDION") =
      ACPI_BUTTON_LID_INIT_OPEN ∧
    acpi_button_register_driver ACPI_BUTTON_LID_INIT_DISABLED
      (fun e => e.sys_vendor == "MEDION") = ACPI_BUTTON_LID_INIT_DISABLED ∧
    acpi_button_register_driver (-1) (fun _ => false) =
      ACPI_BUTTON_LID_INIT_METHOD :=
  ⟨(quirk_resolution (fun e => e.sys_vendor == "MEDION")).2.1
      ⟨"MEDION", "E2215T", none, ACPI_BUTTON_LID_INIT_OPEN⟩
      [⟨"Insyde", "T701", some "BYT70A.YNCHENG.WIN.007",
          ACPI_BUTTON_LID_INIT_DISABLED⟩,
        ⟨"Insyde", "CherryTrail", some "M882",
          ACPI_BUTTON_LID_INIT_DISABLED⟩,
        ⟨"LENOVO", "82BG", none, ACPI_BUTTON_LID_INIT_OPEN⟩]
      [⟨"MEDION", "E2228T", none, ACPI_BUTTON_LID_INIT_OPEN⟩,
        ⟨"Razer", "Razer Blade Stealth 13 Late 2019", none,
          ACPI_BUTTON_LID_INIT_OPEN⟩]
      (by decide) (by decide) (by decide),
    (quirk_resolution (fun e => e.sys_vendor == "MEDION")).1
      ACPI_BUTTON_LID_INIT_DISABLED (by decide),
    (quirk_resolution (fun _ => false)).2.2 (fun x _ => rfl)⟩

/-- C7: a failed raw-state sample is a distinct negative error, never coerced
to open (1) or closed (0): `acpi_lid_evaluate_state` returns `-ENODEV` on
failure and a non-negative value only on success, `acpi_lid_open` propagates
the error to the query caller, and `acpi_lid_update_state` returns the error
without invoking `acpi_lid_notify_state`, leaving the button record unchanged
and emitting nothing. -/
theorem sampling_failure_propagated :
    (acpi_lid_evaluate_state none = -ENODEV ∧ acpi_lid_evaluate_state none < 0) ∧
    (∀ v : Nat, 0 ≤ acpi_lid_evaluate_state (some v)) ∧
    acpi_lid_open (some none) = -ENODEV ∧
    (∀ (pol : Int) (interval now : Nat) (b : AcpiButton) (sw : Bool),
      acpi_lid_update_state pol interval now none b sw = (-ENODEV, b, [])) := by
  refine ⟨⟨rfl, by decide⟩, fun v => ?_, rfl, fun pol interval now b sw => ?_⟩
  · by_cases hv : v = 0 <;> simp [acpi_lid_evaluate_state, hv]
  · simp [acpi_lid_update_state, acpi_lid_evaluate_state, ENODEV]

/-- C8: setting the `lid_init_state` parameter rejects every string that is
not one of the four policy names with `-EINVAL` and keeps the current value;
each valid name stores the corresponding enum value and returns 0. -/
theorem lid_init_state_param (old : Int) (val : String) :
    (val ∉ lid_init_state_str →
      param_set_lid_init_state old val = (-EINVAL, old)) ∧
    (val = "ignore" →
      param_set_lid_init_state old val = (0, ACPI_BUTTON_LID_INIT_IGNORE)) ∧
    (val = "open" →
      param_set_lid_init_state old val = (0, ACPI_BUTTON_LID_INIT_OPEN)) ∧
    (val = "method" →
      param_set_lid_init_state old val = (0, ACPI_BUTTON_LID_INIT_METHOD)) ∧
    (val = "disabled" →
      param_set_lid_init_state old val = (0, ACPI_BUTTON_LID_INIT_DISABLED)) := by
  refine ⟨fun h => ?_, fun h => ?_, fun h => ?_, fun h => ?_, fun h => ?_⟩
  · simp only [lid_init_state_str, List.mem_cons, List.not_mem_nil, or_false,
      not_or] at h
    obtain ⟨h1, h2, h3, h4⟩ := h
    simp [param_set_lid_init_state, sysfs_match_string, sysfs_match_string_go,
      lid_init_state_str, Ne.symm h1, Ne.symm h2, Ne.symm h3, Ne.symm h4,
      EINVAL]
  all_goals subst h
  all_goals simp [param_set_lid_init_state, sysfs_match_string,
    sysfs_match_string_go, lid_init_state_str, ACPI_BUTTON_LID_INIT_IGNORE,
    ACPI_BUTTON_LID_INIT_OPEN, ACPI_BUTTON_LID_INIT_METHOD,
    ACPI_BUTTON_LID_INIT_DISABLED]

/-- Witness for C8: the invalid string "bogus" is rejected keeping the
current policy, and "disabled" is accepted. -/
theorem lid_init_state_param_witness :
    param_set_lid_init_state ACPI_BUTTON_LID_INIT_METHOD "bogus" =
      (-EINVAL, ACPI_BUTTON_LID_INIT_METHOD) ∧
    param_set_lid_init_state ACPI_BUTTON_LID_INIT_METHOD "disabled" =
      (0, ACPI_BUTTON_LID_INIT_DISABLED) :=
  ⟨(lid_init_state_param ACPI_BUTTON_LID_INIT_METHOD "bogus").1 (by decide),
    (lid_init_state_param ACPI_BUTTON_LID_INIT_METHOD "disabled").2.2.2.2 rfl⟩

/-- C9 counterexample: with the resolved policy `open` (AssumeOpen), resuming
at `now = 1000` on hardware that freshly samples closed
(`acpi_lid_evaluate_state (some 0) = 0`, i.e. raw state false) leaves
`last_state = true` after the full resume sequence — the re-applied
initialization overwrites the fresh sample, so post-resume `last_state` does
not equal the freshly sampled raw state. -/
theorem resume_open_policy_counterexample :
    acpi_lid_evaluate_state (some 0) = 0 ∧
    (acpi_button_resume ACPI_BUTTON_LID_INIT_OPEN 500 1000 (some 0)
        ⟨ACPI_BUTTON_TYPE_LID, false, 17, true, true⟩).1.last_state = true := by
  decide

/-- C9 amended: after resume of a lid button with a successful fresh sample,
regardless of pre-suspend history, `suspended` is cleared, `last_time` equals
the resume time, and initialization is re-applied in full
(`lid_state_initialized` set); `last_state` equals the freshly sampled raw
state under every policy except `open` (AssumeOpen), under which the re-run
initialization forces `last_state = true` irrespective of the sample. -/
theorem resume_resets_history (pol : Int) (interval now v : Nat)
    (b : AcpiButton) (hty : b.type = ACPI_BUTTON_TYPE_LID) :
    ((acpi_button_resume pol interval now (some v) b).1.suspended = false) ∧
    ((acpi_button_resume pol interval now (some v) b).1.last_time = now) ∧
    ((acpi_button_resume pol interval now
        (some v) b).1.lid_state_initialized = true) ∧
    (pol ≠ ACPI_BUTTON_LID_INIT_OPEN →
      (acpi_button_resume pol interval now (some v) b).1.last_state =
        decide (v ≠ 0)) ∧
    (pol = ACPI_BUTTON_LID_INIT_OPEN →
      (acpi_button_resume pol interval now (some v) b).1.last_state = true) := by
  have hnl : ¬ (now + interval < now) := by omega
  by_cases h1 : pol = ACPI_BUTTON_LID_INIT_OPEN
  · subst h1
    by_cases hv : v = 0 <;>
      simp [acpi_button_resume, acpi_lid_initialize_state,
        acpi_lid_update_state, acpi_lid_notify_state, acpi_lid_evaluate_state,
        ACPI_BUTTON_LID_INIT_OPEN, ACPI_BUTTON_LID_INIT_METHOD,
        ACPI_BUTTON_LID_INIT_IGNORE, hty, hv, hnl]
  · by_cases h2 : pol = ACPI_BUTTON_LID_INIT_METHOD
    · subst h2
      by_cases hv : v = 0 <;>
        simp [acpi_button_resume, acpi_lid_initialize_state,
          acpi_lid_update_state, acpi_lid_notify_state,
          acpi_lid_evaluate_state, ACPI_BUTTON_LID_INIT_OPEN,
          ACPI_BUTTON_LID_INIT_METHOD, ACPI_BUTTON_LID_INIT_IGNORE, hty, hv,
          hnl]
    · simp only [ACPI_BUTTON_LID_INIT_OPEN] at h1
      simp only [ACPI_BUTTON_LID_INIT_METHOD] at h2
      by_cases hv : v = 0 <;>
        simp [acpi_button_resume, acpi_lid_initialize_state,
          acpi_lid_update_state, acpi_lid_notify_state,
          acpi_lid_evaluate_state, ACPI_BUTTON_LID_INIT_OPEN,
          ACPI_BUTTON_LID_INIT_METHOD, ACPI_BUTTON_LID_INIT_IGNORE, hty, hv,
          hnl, h1, h2]

/-- Witness for the amended C9: resume under the `method` policy with a fresh
open sample on an arbitrary pre-suspend tracker. -/
theorem resume_resets_history_witness :
    ((acpi_button_resume ACPI_BUTTON_LID_INIT_METHOD 500 1000 (some 1)
        ⟨ACPI_BUTTON_TYPE_LID, false, 17, true, true⟩).1.suspended = false) ∧
    ((acpi_button_resume ACPI_BUTTON_LID_INIT_METHOD 500 1000 (some 1)
        ⟨ACPI_BUTTON_TYPE_LID, false, 17, true, true⟩).1.last_time = 1000) ∧
    ((acpi_button_resume ACPI_BUTTON_LID_INIT_METHOD 500 1000 (some 1)
        ⟨ACPI_BUTTON_TYPE_LID, false, 17, true,
          true⟩).1.lid_state_initialized = true) ∧
    (ACPI_BUTTON_LID_INIT_METHOD ≠ ACPI_BUTTON_LID_INIT_OPEN →
      (acpi_button_resume ACPI_BUTTON_LID_INIT_METHOD 500 1000 (some 1)
          ⟨ACPI_BUTTON_TYPE_LID, false, 17, true, true⟩).1.last_state =
        decide ((1 : Nat) ≠ 0)) ∧
    (ACPI_BUTTON_LID_INIT_METHOD = ACPI_BUTTON_LID_INIT_OPEN →
      (acpi_button_resume ACPI_BUTTON_LID_INIT_METHOD 500 1000 (some 1)
          ⟨ACPI_BUTTON_TYPE_LID, false, 17, true, true⟩).1.last_state =
        true) :=
  resume_resets_history ACPI_BUTTON_LID_INIT_METHOD 500 1000 1
    ⟨ACPI_BUTTON_TYPE_LID, false, 17, true, true⟩ rfl
